import Mathlib

/-
Shallow embedding of the projecto-backend repository (Django REST backend
for project collaboration): data model from src/accounts/models.py and
src/projects/models.py, operations from src/accounts/manager.py,
src/projects/serializers.py and src/projects/views.py.

The database is modelled as lists of rows; primary keys are explicit
natural-number counters.  A Django ORM `.create(...)` that violates a
`unique_together` / `unique=True` constraint raises an IntegrityError that
no view catches (an unhandled 500); a DRF `serializers.ValidationError`
raised inside the serializer method `create` is turned into a 400 response by the
framework exception handler.  These two outcomes are kept distinct as
`ApiError.validation` (typed 400 field error) and `ApiError.integrity`
(unhandled database uniqueness violation).
-/

namespace Projecto

/-- User row (src/accounts/models.py, class Users).  Fields irrelevant to
the verified claims (password hash, staff flag, join timestamp) are
omitted; `is_active` is the model field `is_active` with default `True`. -/
structure User where
  id : Nat
  email : String
  firstname : String
  lastname : String
  frontend : Bool
  backend : Bool
  is_active : Bool
deriving DecidableEq

/-- Project row (src/projects/models.py, class ProjectLead);
`owner` is the primary key of the owning user. -/
structure Project where
  id : Nat
  owner : Nat
  projectname : String
  description : String
  frontend : Bool
  backend : Bool
deriving DecidableEq

/-- Join-request row (class ProjectRequest) and accepted-member row
(class ProjectMembers) share this shape: project pk, user pk, message. -/
structure JoinRow where
  project : Nat
  member : Nat
  message : String
deriving DecidableEq

/-- Rejected-request row (class ProjectRequestRejected); its user field is
named `user` in the model. -/
structure RejectRow where
  project : Nat
  user : Nat
  message : String
deriving DecidableEq

/-- Database state: the five tables plus auto-increment counters for the
two tables whose primary keys the code observes. -/
structure DB where
  users : List User
  projects : List Project
  requests : List JoinRow
  members : List JoinRow
  rejected : List RejectRow
  nextUid : Nat
  nextPid : Nat
deriving DecidableEq

/-- Python truthiness of an optional query parameter: absent (`None`) and
the empty string are falsy, every other string is truthy. -/
def qtruthy : Option String → Bool
  | none => false
  | some s => !(s == "")

/-- Outcome of a create endpoint.  `validation f` is a DRF
ValidationError attached to field `f` (a typed 400 response);
`integrity` is a database uniqueness violation raised by `.create(...)`
that no code catches (an unhandled error, a 500 response). -/
inductive ApiError where
  | validation (field : String)
  | integrity
deriving DecidableEq

/-- Outcome of the discovery listing view: `unboundLocal` is the Python
UnboundLocalError raised when the code reaches
`projectsrequest.filter(member=user)` with `user` never assigned. -/
inductive ViewError where
  | unboundLocal
deriving DecidableEq

/-- Response of the project-count endpoint: either an error response with
an HTTP status code and message, or the three counts. -/
inductive CountResp where
  | err (code : Nat) (msg : String)
  | ok (created joined pending : Nat)
deriving DecidableEq

/-- Strips leading and trailing whitespace characters from a character
list; mirrors the Python method `str.strip()` (applied by `normalize_email`) and
the whitespace trimming DRF character fields perform on input. -/
def stripChars (l : List Char) : List Char :=
  ((l.dropWhile Char.isWhitespace).reverse.dropWhile Char.isWhitespace).reverse

/-- String form of `stripChars`. -/
def pystrip (s : String) : String := String.mk (stripChars s.toList)

/-- Splits a character list at its LAST `@`, returning the part before
and the part after; `none` when no `@` occurs.  Mirrors the Python call
`rsplit("@", 1)` used by `BaseUserManager.normalize_email`. -/
def rsplitAtSign : List Char → Option (List Char × List Char)
  | [] => none
  | ch :: rest =>
    match rsplitAtSign rest with
    | some (a, b) => some (ch :: a, b)
    | none => if ch = '@' then some ([], rest) else none

/-- Django `BaseUserManager.normalize_email`: strip surrounding
whitespace, split at the last `@` and lowercase the domain part; an email
without `@` is returned unchanged (the original, unstripped string). -/
def normalize_email (email : String) : String :=
  match rsplitAtSign (pystrip email).toList with
  | none => email
  | some (name, domain) => String.mk (name ++ '@' :: domain.map Char.toLower)

/-- Registration endpoint (RegistrationView.create → UsersCreateSerializer
→ UserManager.create_user, src/accounts/views.py + serializers.py +
manager.py).  The serializer first validates the submitted email: it is
trimmed, must be non-blank, and a DRF UniqueValidator (auto-generated for
`unique=True` on the model field) rejects it with a field error when a
stored user already has exactly that string as email.  `create_user` then
normalizes the email (domain lowercased) and saves; the database unique
constraint on the stored (normalized) email surfaces as an integrity
error if it collides.  Password hashing is delegated and omitted. -/
def register (db : DB) (email firstname lastname : String)
    (frontend backend : Bool) : Except ApiError (DB × User) :=
  let v := pystrip email
  if v == "" then .error (.validation "email")
  else if db.users.any (fun u => u.email == v) then .error (.validation "email")
  else
    let e := normalize_email v
    if db.users.any (fun u => u.email == e) then .error .integrity
    else
      let u : User :=
        { id := db.nextUid, email := e, firstname := firstname,
          lastname := lastname, frontend := frontend, backend := backend,
          is_active := true }
      .ok ({ db with users := db.users ++ [u], nextUid := db.nextUid + 1 }, u)

/-- Project creation (ProjectLeadCreateSerializer.create,
src/projects/serializers.py lines 36-65).  An unknown owner email raises
a typed ValidationError on field "email"; a duplicate (owner,
projectname) pair is NOT pre-checked, so the model `unique_together`
constraint surfaces as an integrity error from `.create(...)`. -/
def projectLeadCreate (db : DB) (email projectname description : String)
    (frontend backend : Bool) : Except ApiError (DB × Project) :=
  match db.users.find? (fun u => u.email == email) with
  | none => .error (.validation "email")
  | some user =>
    if db.projects.any (fun p => p.owner == user.id && p.projectname == projectname) then
      .error .integrity
    else
      let pr : Project :=
        { id := db.nextPid, owner := user.id, projectname := projectname,
          description := description, frontend := frontend, backend := backend }
      .ok ({ db with projects := db.projects ++ [pr], nextPid := db.nextPid + 1 }, pr)

/-- Join-request creation (ProjectRequestCreateSerializer.create,
src/projects/serializers.py lines 137-182).  Owner, member and project
are each validated with a typed field error; the duplicate (project,
member) pair is NOT pre-checked, so the model `unique_together`
constraint surfaces as an integrity error from `.create(...)`.  The
message defaults to the model default string. -/
def projectRequestCreate (db : DB) (owner_email projectname member_email : String)
    (message : Option String) : Except ApiError (DB × JoinRow) :=
  let msg := message.getD "I am interested in joining this project"
  match db.users.find? (fun u => u.email == owner_email) with
  | none => .error (.validation "owner_email")
  | some owner =>
    match db.users.find? (fun u => u.email == member_email) with
    | none => .error (.validation "member_email")
    | some member =>
      match (db.projects.filter (fun p => p.owner == owner.id)).find?
          (fun p => p.projectname == projectname) with
      | none => .error (.validation "projectname")
      | some project =>
        if db.requests.any (fun r => r.project == project.id && r.member == member.id) then
          .error .integrity
        else
          let row : JoinRow := { project := project.id, member := member.id, message := msg }
          .ok ({ db with requests := db.requests ++ [row] }, row)

/-- Accept (ProjectMemberCreateSerializer.create, src/projects/serializers.py
lines 229-269): inserts an accepted-member row after validating owner,
member and project.  No check involving the requests table is made, and
the requests table is untouched; a duplicate (project, member) member row
surfaces as an integrity error. -/
def projectMemberCreate (db : DB) (owner_email member_email projectname : String)
    (message : String) : Except ApiError (DB × JoinRow) :=
  match db.users.find? (fun u => u.email == owner_email) with
  | none => .error (.validation "owner")
  | some owner =>
    match db.users.find? (fun u => u.email == member_email) with
    | none => .error (.validation "member")
    | some member =>
      match (db.projects.filter (fun p => p.owner == owner.id)).find?
          (fun p => p.projectname == projectname) with
      | none => .error (.validation "project")
      | some project =>
        if db.members.any (fun r => r.project == project.id && r.member == member.id) then
          .error .integrity
        else
          let row : JoinRow := { project := project.id, member := member.id, message := message }
          .ok ({ db with members := db.members ++ [row] }, row)

/-- Reject (ProjectRejectedCreateSerializer.create,
src/projects/serializers.py lines 293-333): inserts a rejected-request
row after the same three validations; the requests table is untouched. -/
def projectRejectedCreate (db : DB) (owner_email member_email projectname : String)
    (message : String) : Except ApiError (DB × RejectRow) :=
  match db.users.find? (fun u => u.email == owner_email) with
  | none => .error (.validation "owner")
  | some owner =>
    match db.users.find? (fun u => u.email == member_email) with
    | none => .error (.validation "member")
    | some member =>
      match (db.projects.filter (fun p => p.owner == owner.id)).find?
          (fun p => p.projectname == projectname) with
      | none => .error (.validation "project")
      | some project =>
        if db.rejected.any (fun r => r.project == project.id && r.user == member.id) then
          .error .integrity
        else
          let row : RejectRow := { project := project.id, user := member.id, message := message }
          .ok ({ db with rejected := db.rejected ++ [row] }, row)

/-- Owned-project listing (ProjectLeadView.get_queryset,
src/projects/views.py lines 66-86): when the email parameter is truthy
and a user matches, the queryset is filtered to that owner; when the user
lookup fails the exception is swallowed (`pass`) and the UNFILTERED
queryset of all projects is returned, as it also is when the parameter is
absent or empty. -/
def projectLeadQueryset (db : DB) (email : Option String) : List Project :=
  if qtruthy email then
    match db.users.find? (fun u => u.email == email.getD "") with
    | some user => db.projects.filter (fun p => p.owner == user.id)
    | none => db.projects
  else db.projects

/-- Discovery listing (ProjectsDisplayView.get_queryset,
src/projects/views.py lines 105-151).  With a truthy email: a failed user
lookup is swallowed by `pass`, but the code then unconditionally
evaluates `projectsrequest.filter(member=user)` with the local `user`
never assigned, raising an UnboundLocalError (modelled as
`ViewError.unboundLocal`).  With a found user: excludes the projects the
viewer owns, applies the skill filter (skipped entirely when BOTH flags are
"true"), then excludes projects the viewer has requested and projects the
viewer has joined; the rejected table is never consulted (the exclusion
is commented out in the source).  A falsy email yields the empty
queryset. -/
def projectsDisplayQueryset (db : DB) (email frontend backend : Option String) :
    Except ViewError (List Project) :=
  if qtruthy email then
    match db.users.find? (fun u => u.email == email.getD "") with
    | none => .error .unboundLocal
    | some user =>
      let qs := db.projects.filter (fun p => !(p.owner == user.id))
      let qs :=
        if frontend == some "true" && backend == some "true" then qs
        else if frontend == some "true" then qs.filter (fun p => p.frontend)
        else if backend == some "true" then qs.filter (fun p => p.backend)
        else qs
      let requested := (db.requests.filter (fun r => r.member == user.id)).map (fun r => r.project)
      let joined := (db.members.filter (fun r => r.member == user.id)).map (fun r => r.project)
      let qs := qs.filter (fun p => !(requested.contains p.id))
      let qs := qs.filter (fun p => !(joined.contains p.id))
      .ok qs
  else .ok []

/-- Pending requests on a project of a given owner (ProjectRequestDisplayView.
get_queryset, src/projects/views.py lines 198-221): only when BOTH
parameters are truthy AND both lookups succeed is the table filtered;
otherwise every request row is returned. -/
def projectRequestDisplayQueryset (db : DB) (email projectname : Option String) :
    List JoinRow :=
  if qtruthy email && qtruthy projectname then
    match db.users.find? (fun u => u.email == email.getD "") with
    | none => db.requests
    | some user =>
      match (db.projects.filter (fun p => p.owner == user.id)).find?
          (fun p => p.projectname == projectname.getD "") with
      | none => db.requests
      | some project => db.requests.filter (fun r => r.project == project.id)
  else db.requests

/-- Joined projects of a user (JoinedProjectDisplayView.get_queryset,
src/projects/views.py lines 303-323): a failed lookup (bare `except:
pass`) or a falsy email returns every member row. -/
def joinedProjectsQueryset (db : DB) (email : Option String) : List JoinRow :=
  if qtruthy email then
    match db.users.find? (fun u => u.email == email.getD "") with
    | none => db.members
    | some user => db.members.filter (fun r => r.member == user.id)
  else db.members

/-- Members of a project of a given owner (ProjectMembersDisplayView.get_queryset,
src/projects/views.py lines 338-361): same fallback shape as the request
display view, over the members table. -/
def projectMembersDisplayQueryset (db : DB) (email projectname : Option String) :
    List JoinRow :=
  if qtruthy email && qtruthy projectname then
    match db.users.find? (fun u => u.email == email.getD "") with
    | none => db.members
    | some user =>
      match (db.projects.filter (fun p => p.owner == user.id)).find?
          (fun p => p.projectname == projectname.getD "") with
      | none => db.members
      | some project => db.members.filter (fun r => r.project == project.id)
  else db.members

/-- Pending requests by a user (PendingProjectsView.get_queryset,
src/projects/views.py lines 375-395): a failed lookup or falsy email
returns every request row. -/
def pendingProjectsQueryset (db : DB) (email : Option String) : List JoinRow :=
  if qtruthy email then
    match db.users.find? (fun u => u.email == email.getD "") with
    | none => db.requests
    | some user => db.requests.filter (fun r => r.member == user.id)
  else db.requests

/-- Aggregate counts (ProjectCountView.list, src/projects/views.py lines
410-448): 400 when the email parameter is falsy, 404 when no user
matches, otherwise the three table counts for that user. -/
def projectCountList (db : DB) (email : Option String) : CountResp :=
  if qtruthy email then
    match db.users.find? (fun u => u.email == email.getD "") with
    | none => .err 404 "User not found"
    | some user =>
      .ok ((db.projects.filter (fun p => p.owner == user.id)).length)
        ((db.members.filter (fun r => r.member == user.id)).length)
        ((db.requests.filter (fun r => r.member == user.id)).length)
  else .err 400 "Email query parameter is required"

/-- Extracts the list from an ok listing response (empty on error). -/
def okList : Except ViewError (List Project) → List Project
  | .ok l => l
  | .error _ => []

/-- Discriminates a typed DRF validation error (400) from every other
outcome, in particular from the unhandled integrity error. -/
def isValidationError {α : Type} : Except ApiError α → Bool
  | .error (.validation _) => true
  | _ => false

/-- Example user Ann, pk 0. -/
def exUserA : User :=
  { id := 0, email := "a@x.com", firstname := "Ann", lastname := "A",
    frontend := true, backend := false, is_active := true }

/-- Example user Bob, pk 1. -/
def exUserB : User :=
  { id := 1, email := "b@x.com", firstname := "Bob", lastname := "B",
    frontend := false, backend := true, is_active := true }

/-- Example project P owned by Ann, pk 0. -/
def exProjP : Project :=
  { id := 0, owner := 0, projectname := "P", description := "demo",
    frontend := true, backend := false }

/-- Example database: Ann and Bob registered, one project P owned by
Ann, no requests, members or rejections. -/
def exDb : DB :=
  { users := [exUserA, exUserB], projects := [exProjP], requests := [],
    members := [], rejected := [], nextUid := 2, nextPid := 1 }

/-- Example database with a pending join request by Bob for P. -/
def exDbReq : DB :=
  { exDb with requests := [{ project := 0, member := 1, message := "hi" }] }

/-- The request row inserted by a successful request_join of Bob for P
(default message). -/
def exRowBP : JoinRow :=
  { project := 0, member := 1, message := "I am interested in joining this project" }

/-- Project "Q" as created by Bob in `exDb` (fresh pk 1). -/
def exProjQ : Project :=
  { id := 1, owner := 1, projectname := "Q", description := "d", frontend := true, backend := false }

/-- The user stored by registering "b@Y.com" into `exDb7` (fresh pk 1,
normalized email). -/
def exUserC : User :=
  { id := 1, email := "b@y.com", firstname := "F", lastname := "L", frontend := true, backend := false, is_active := true }

/-- The empty database. -/
def exDb0 : DB :=
  { users := [], projects := [], requests := [], members := [],
    rejected := [], nextUid := 0, nextPid := 0 }

/-- Database state after registering "a@X.com" into the empty database:
one user whose stored email is the normalized "a@x.com". -/
def exDb7 : DB :=
  { users := [{ id := 0, email := "a@x.com", firstname := "F", lastname := "L",
                frontend := false, backend := false, is_active := true }],
    projects := [], requests := [], members := [], rejected := [],
    nextUid := 1, nextPid := 0 }

/-- No two user rows share an email (the database unique constraint on
Users.email). -/
def emailsUnique (l : List User) : Prop :=
  l.Pairwise (fun a b => a.email ≠ b.email)

/-- No two join rows share a (project, member) pair (the database
unique_together constraint). -/
def pairUnique (l : List JoinRow) : Prop :=
  l.Pairwise (fun a b => a.project ≠ b.project ∨ a.member ≠ b.member)

instance (l : List User) : Decidable (emailsUnique l) := by
  unfold emailsUnique
  infer_instance

instance (l : List JoinRow) : Decidable (pairUnique l) := by
  unfold pairUnique
  infer_instance



/-- A user found by email is a member of the table with that exact email. -/
theorem find_email_spec {us : List User} {e : String} {u : User}
    (hf : us.find? (fun x => x.email == e) = some u) :
    u ∈ us ∧ u.email = e := by
  refine ⟨List.mem_of_find?_eq_some hf, ?_⟩
  have := List.find?_some hf
  simpa using this

/-- Under email uniqueness, "some user with id `n` has email `e`" is the
same boolean as "`n` is the id of the user the code finds for `e`". -/
theorem any_id_email {us : List User} {e : String} {u : User}
    (hu : emailsUnique us) (hf : us.find? (fun x => x.email == e) = some u)
    (n : Nat) :
    us.any (fun w => w.id == n && w.email == e) = (n == u.id) := by
  obtain ⟨hmem, hue⟩ := find_email_spec hf
  by_cases hn : n = u.id
  · have hone : us.any (fun w => w.id == n && w.email == e) = true := by
      rw [List.any_eq_true]
      exact ⟨u, hmem, by simp [hn, hue]⟩
    rw [hone, hn]
    simp
  · have hzero : us.any (fun w => w.id == n && w.email == e) = false := by
      rw [List.any_eq_false]
      intro w hw
      simp only [Bool.and_eq_true, beq_iff_eq, not_and]
      intro hwid hwe
      have hpw : us.Pairwise (fun a b => a.email ≠ b.email) := hu
      have hwu : w = u := by
        by_contra hne
        exact (List.Pairwise.forall (fun _ _ h => Ne.symm h) hpw hw hmem hne)
          (hwe.trans hue.symm)
      exact hn (hwu ▸ hwid).symm
    rw [hzero]
    symm
    rw [beq_eq_false_iff_ne]
    exact hn


/-- The truthiness check on a non-empty string parameter succeeds. -/
theorem qtruthy_some {e : String} (he : e ≠ "") : qtruthy (some e) = true := by
  simp [qtruthy, he]

/-- C9: for every discovery listing call (GET /projects?email=) where the
email parameter is present and non-empty but matches no registered user,
no project list is returned: the swallowed lookup failure leaves the
local `user` unbound and the pending/joined exclusion filters raise an
unhandled error. -/
theorem discovery_unknown_user_raises (db : DB) (e : String) (f b : Option String)
    (he : e ≠ "") (hn : db.users.find? (fun u => u.email == e) = none) :
    projectsDisplayQueryset db (some e) f b = .error ViewError.unboundLocal := by
  simp [projectsDisplayQueryset, qtruthy_some he, hn]

/-- Witness for C9 at a concrete database and unknown email. -/
theorem discovery_unknown_user_raises_witness :
    projectsDisplayQueryset exDb (some "c@x.com") none none
      = .error ViewError.unboundLocal :=
  discovery_unknown_user_raises exDb "c@x.com" none none (by decide) (by decide)

/-- C6 counterexample: in `exDb` no user has email "c@x.com", yet the
owned-project listing for that email is NOT the empty list (it returns
every project). -/
theorem list_owned_unknown_email_cex :
    (exDb.users.all (fun u => !(u.email == "c@x.com"))) = true
    ∧ projectLeadQueryset exDb (some "c@x.com") ≠ [] := by
  constructor
  · decide
  · decide

/-- C6 (amended): list_owned(E) returns exactly the projects whose owner
has email E when a registered user carries that email; when E matches
no registered user it returns the full unfiltered project table (not an
error, and not the empty list). -/
theorem list_owned_spec (db : DB) (e : String) (u : User)
    (he : e ≠ "") (hu : emailsUnique db.users) :
    (db.users.find? (fun x => x.email == e) = some u →
      projectLeadQueryset db (some e)
        = db.projects.filter (fun p => db.users.any (fun w => w.id == p.owner && w.email == e)))
    ∧ (db.users.find? (fun x => x.email == e) = none →
      projectLeadQueryset db (some e) = db.projects) := by
  constructor
  · intro hf
    simp only [projectLeadQueryset, qtruthy_some he, if_true, Option.getD_some, hf]
    symm
    apply List.filter_congr
    intro p _
    exact any_id_email hu hf p.owner
  · intro hf
    simp [projectLeadQueryset, qtruthy_some he, hf]

/-- Witness for C6: concrete listings for a known owner and for an
unknown email, both obtained from `list_owned_spec`. -/
theorem list_owned_spec_witness :
    projectLeadQueryset exDb (some "a@x.com")
      = exDb.projects.filter (fun p => exDb.users.any (fun w => w.id == p.owner && w.email == "a@x.com"))
    ∧ projectLeadQueryset exDb (some "c@x.com") = exDb.projects := by
  constructor
  · exact (list_owned_spec exDb "a@x.com" exUserA (by decide) (by decide)).1 (by decide)
  · exact (list_owned_spec exDb "c@x.com" exUserA (by decide) (by decide)).2 (by decide)

/-- C10: each scoped listing endpoint — pending requests on a project of
an owner, members of a project, projects joined by a user, and pending
requests by a user — silently returns EVERY row of its underlying table
when its query parameter is falsy (missing or empty) or when the lookup
the parameter names fails, rather than an empty list or an error. -/
theorem scoped_listings_fall_back_to_full_table (db : DB) (em pn : Option String)
    (user : User) :
    ((qtruthy em && qtruthy pn) = false → projectRequestDisplayQueryset db em pn = db.requests)
    ∧ (db.users.find? (fun u => u.email == em.getD "") = none →
        projectRequestDisplayQueryset db em pn = db.requests)
    ∧ (db.users.find? (fun u => u.email == em.getD "") = some user →
       (db.projects.filter (fun p => p.owner == user.id)).find?
          (fun p => p.projectname == pn.getD "") = none →
        projectRequestDisplayQueryset db em pn = db.requests)
    ∧ ((qtruthy em && qtruthy pn) = false → projectMembersDisplayQueryset db em pn = db.members)
    ∧ (db.users.find? (fun u => u.email == em.getD "") = none →
        projectMembersDisplayQueryset db em pn = db.members)
    ∧ (db.users.find? (fun u => u.email == em.getD "") = some user →
       (db.projects.filter (fun p => p.owner == user.id)).find?
          (fun p => p.projectname == pn.getD "") = none →
        projectMembersDisplayQueryset db em pn = db.members)
    ∧ (qtruthy em = false → joinedProjectsQueryset db em = db.members)
    ∧ (db.users.find? (fun u => u.email == em.getD "") = none →
        joinedProjectsQueryset db em = db.members)
    ∧ (qtruthy em = false → pendingProjectsQueryset db em = db.requests)
    ∧ (db.users.find? (fun u => u.email == em.getD "") = none →
        pendingProjectsQueryset db em = db.requests) := by
  refine ⟨?_, ?_, ?_, ?_, ?_, ?_, ?_, ?_, ?_, ?_⟩
  · intro h
    simp [projectRequestDisplayQueryset, h]
  · intro h
    unfold projectRequestDisplayQueryset
    split
    · simp [h]
    · rfl
  · intro hf hp
    unfold projectRequestDisplayQueryset
    split
    · simp [hf, hp]
    · rfl
  · intro h
    simp [projectMembersDisplayQueryset, h]
  · intro h
    unfold projectMembersDisplayQueryset
    split
    · simp [h]
    · rfl
  · intro hf hp
    unfold projectMembersDisplayQueryset
    split
    · simp [hf, hp]
    · rfl
  · intro h
    simp [joinedProjectsQueryset, h]
  · intro h
    unfold joinedProjectsQueryset
    split
    · simp [h]
    · rfl
  · intro h
    simp [pendingProjectsQueryset, h]
  · intro h
    unfold pendingProjectsQueryset
    split
    · simp [h]
    · rfl

/-- Witness for C10: all ten fall-back cases at concrete inputs on
`exDb` (missing parameters, unknown email "zz@x.com", unknown project
"QQ"), each returning the full underlying table. -/
theorem scoped_listings_fall_back_witness :
    projectRequestDisplayQueryset exDb none none = exDb.requests
    ∧ projectRequestDisplayQueryset exDb (some "zz@x.com") (some "P") = exDb.requests
    ∧ projectRequestDisplayQueryset exDb (some "a@x.com") (some "QQ") = exDb.requests
    ∧ projectMembersDisplayQueryset exDb none none = exDb.members
    ∧ projectMembersDisplayQueryset exDb (some "zz@x.com") (some "P") = exDb.members
    ∧ projectMembersDisplayQueryset exDb (some "a@x.com") (some "QQ") = exDb.members
    ∧ joinedProjectsQueryset exDb none = exDb.members
    ∧ joinedProjectsQueryset exDb (some "zz@x.com") = exDb.members
    ∧ pendingProjectsQueryset exDb none = exDb.requests
    ∧ pendingProjectsQueryset exDb (some "zz@x.com") = exDb.requests := by
  refine ⟨?_, ?_, ?_, ?_, ?_, ?_, ?_, ?_, ?_, ?_⟩
  · exact (scoped_listings_fall_back_to_full_table exDb none none exUserA).1 (by decide)
  · exact (scoped_listings_fall_back_to_full_table exDb (some "zz@x.com") (some "P")
      exUserA).2.1 (by decide)
  · exact (scoped_listings_fall_back_to_full_table exDb (some "a@x.com") (some "QQ")
      exUserA).2.2.1 (by decide) (by decide)
  · exact (scoped_listings_fall_back_to_full_table exDb none none exUserA).2.2.2.1 (by decide)
  · exact (scoped_listings_fall_back_to_full_table exDb (some "zz@x.com") (some "P")
      exUserA).2.2.2.2.1 (by decide)
  · exact (scoped_listings_fall_back_to_full_table exDb (some "a@x.com") (some "QQ")
      exUserA).2.2.2.2.2.1 (by decide) (by decide)
  · exact (scoped_listings_fall_back_to_full_table exDb none none exUserA).2.2.2.2.2.2.1
      (by decide)
  · exact (scoped_listings_fall_back_to_full_table exDb (some "zz@x.com") (some "P")
      exUserA).2.2.2.2.2.2.2.1 (by decide)
  · exact (scoped_listings_fall_back_to_full_table exDb none none
      exUserA).2.2.2.2.2.2.2.2.1 (by decide)
  · exact (scoped_listings_fall_back_to_full_table exDb (some "zz@x.com") (some "P")
      exUserA).2.2.2.2.2.2.2.2.2 (by decide)

/-- C3: accept (ProjectMemberCreateSerializer.create) and reject
(ProjectRejectedCreateSerializer.create) never consult the
pending-request table — replacing that table by anything, including the
empty one, leaves their success or failure unchanged, so accept can be
called with no prior request_join — and neither operation deletes or
modifies any pending request row: the request table of the resulting
state equals the one of the input state. -/
theorem accept_reject_leave_requests_unchanged (db : DB) (rs : List JoinRow)
    (oe me pn msg : String) :
    ((projectMemberCreate { db with requests := rs } oe me pn msg).isOk
        = (projectMemberCreate db oe me pn msg).isOk)
    ∧ ((match projectMemberCreate db oe me pn msg with
        | .ok (db2, _) => db2.requests
        | .error _ => db.requests) = db.requests)
    ∧ ((projectRejectedCreate { db with requests := rs } oe me pn msg).isOk
        = (projectRejectedCreate db oe me pn msg).isOk)
    ∧ ((match projectRejectedCreate db oe me pn msg with
        | .ok (db2, _) => db2.requests
        | .error _ => db.requests) = db.requests) := by
  unfold projectMemberCreate projectRejectedCreate
  dsimp only
  cases db.users.find? (fun u => u.email == oe) with
  | none => exact ⟨rfl, rfl, rfl, rfl⟩
  | some owner =>
    dsimp only
    cases db.users.find? (fun u => u.email == me) with
    | none => exact ⟨rfl, rfl, rfl, rfl⟩
    | some member =>
      dsimp only
      cases (db.projects.filter (fun p => p.owner == owner.id)).find?
          (fun p => p.projectname == pn) with
      | none => exact ⟨rfl, rfl, rfl, rfl⟩
      | some project =>
        dsimp only
        refine ⟨?_, ?_, ?_, ?_⟩
        · by_cases h : db.members.any
              (fun r => r.project == project.id && r.member == member.id) = true <;>
            simp [h, Except.isOk, Except.toBool]
        · by_cases h : db.members.any
              (fun r => r.project == project.id && r.member == member.id) = true <;>
            simp [h]
        · by_cases h : db.rejected.any
              (fun r => r.project == project.id && r.user == member.id) = true <;>
            simp [h, Except.isOk, Except.toBool]
        · by_cases h : db.rejected.any
              (fun r => r.project == project.id && r.user == member.id) = true <;>
            simp [h]

/-- C5: the project-count endpoint returns the 400 bad-request response
when the email parameter is missing or empty, the distinct 404 not-found
response when the non-empty email matches no registered user, and
otherwise exactly the number of projects owned by the user carrying that
email together with the number of accepted membership rows and pending
request rows of that user. -/
theorem project_count_spec (db : DB) (e : String) (u : User) :
    projectCountList db none = .err 400 "Email query parameter is required"
    ∧ projectCountList db (some "") = .err 400 "Email query parameter is required"
    ∧ (e ≠ "" → db.users.find? (fun x => x.email == e) = none →
        projectCountList db (some e) = .err 404 "User not found")
    ∧ (e ≠ "" → emailsUnique db.users →
       db.users.find? (fun x => x.email == e) = some u →
        projectCountList db (some e) = .ok
          ((db.projects.filter
              (fun p => db.users.any (fun w => w.id == p.owner && w.email == e))).length)
          ((db.members.filter
              (fun r => db.users.any (fun w => w.id == r.member && w.email == e))).length)
          ((db.requests.filter
              (fun r => db.users.any (fun w => w.id == r.member && w.email == e))).length)) := by
  refine ⟨rfl, rfl, ?_, ?_⟩
  · intro he hf
    simp [projectCountList, qtruthy_some he, hf]
  · intro he hu hf
    have h1 : db.projects.filter (fun p => p.owner == u.id)
        = db.projects.filter
            (fun p => db.users.any (fun w => w.id == p.owner && w.email == e)) :=
      List.filter_congr (fun p _ => (any_id_email hu hf p.owner).symm)
    have h2 : db.members.filter (fun r => r.member == u.id)
        = db.members.filter
            (fun r => db.users.any (fun w => w.id == r.member && w.email == e)) :=
      List.filter_congr (fun r _ => (any_id_email hu hf r.member).symm)
    have h3 : db.requests.filter (fun r => r.member == u.id)
        = db.requests.filter
            (fun r => db.users.any (fun w => w.id == r.member && w.email == e)) :=
      List.filter_congr (fun r _ => (any_id_email hu hf r.member).symm)
    simp [projectCountList, qtruthy_some he, hf, h1, h2, h3]

/-- Witness for C5: the three response shapes at concrete inputs on
`exDb` (missing parameter, unknown email, the email of Ann). -/
theorem project_count_spec_witness :
    projectCountList exDb none = .err 400 "Email query parameter is required"
    ∧ projectCountList exDb (some "zz@x.com") = .err 404 "User not found"
    ∧ projectCountList exDb (some "a@x.com") = .ok
        ((exDb.projects.filter
            (fun p => exDb.users.any (fun w => w.id == p.owner && w.email == "a@x.com"))).length)
        ((exDb.members.filter
            (fun r => exDb.users.any (fun w => w.id == r.member && w.email == "a@x.com"))).length)
        ((exDb.requests.filter
            (fun r => exDb.users.any (fun w => w.id == r.member && w.email == "a@x.com"))).length) := by
  refine ⟨?_, ?_, ?_⟩
  · exact (project_count_spec exDb "zz@x.com" exUserA).1
  · exact (project_count_spec exDb "zz@x.com" exUserA).2.2.1 (by decide) (by decide)
  · exact (project_count_spec exDb "a@x.com" exUserA).2.2.2 (by decide) (by decide) (by decide)

/-- C1: for a viewer whose email matches a registered user (no skill
filters requested), the discovery listing contains a project exactly when
the viewer does not own it, has no pending request row on it and has no
membership row on it; and the listing is unchanged under arbitrary
replacement of the rejected table, so rejected projects are NOT
excluded. -/
theorem discovery_boundary (db : DB) (e : String) (u : User) (p : Project)
    (rej : List RejectRow) (he : e ≠ "")
    (hf : db.users.find? (fun x => x.email == e) = some u) :
    (p ∈ okList (projectsDisplayQueryset db (some e) none none) ↔
      p ∈ db.projects ∧ p.owner ≠ u.id
      ∧ (¬ ∃ r ∈ db.requests, r.member = u.id ∧ r.project = p.id)
      ∧ (¬ ∃ m ∈ db.members, m.member = u.id ∧ m.project = p.id))
    ∧ projectsDisplayQueryset { db with rejected := rej } (some e) none none
        = projectsDisplayQueryset db (some e) none none := by
  constructor
  · simp [projectsDisplayQueryset, qtruthy_some he, hf, okList]
    intro _
    tauto
  · rfl

/-- Witness for C1: in `exDbReq` the pending request by Bob on project P
removes P from the discovery listing of Bob, in `exDb` (no request) P is
listed, and a nonempty rejected table leaves the listing unchanged. -/
theorem discovery_boundary_witness :
    exProjP ∉ okList (projectsDisplayQueryset exDbReq (some "b@x.com") none none)
    ∧ exProjP ∈ okList (projectsDisplayQueryset exDb (some "b@x.com") none none)
    ∧ projectsDisplayQueryset
        { exDb with rejected := [{ project := 0, user := 1, message := "no" }] }
        (some "b@x.com") none none
      = projectsDisplayQueryset exDb (some "b@x.com") none none := by
  refine ⟨?_, ?_, ?_⟩
  · intro hmem
    exact absurd
      ((discovery_boundary exDbReq "b@x.com" exUserB exProjP [] (by decide)
        (by decide)).1.mp hmem) (by decide)
  · exact (discovery_boundary exDb "b@x.com" exUserB exProjP [] (by decide)
      (by decide)).1.mpr (by decide)
  · exact (discovery_boundary exDb "b@x.com" exUserB exProjP
      [{ project := 0, user := 1, message := "no" }] (by decide) (by decide)).2

/-- C8: for a valid viewer, requesting BOTH skill filters ("true" and
"true") applies no skill filtering at all — the listing equals the one
with no filters — while requesting exactly one filter restricts the
listing to the projects whose corresponding requirement flag is set. -/
theorem discovery_skill_filters (db : DB) (e : String) (u : User) (fe be : Option String)
    (he : e ≠ "") (hf : db.users.find? (fun x => x.email == e) = some u) :
    (projectsDisplayQueryset db (some e) (some "true") (some "true")
      = projectsDisplayQueryset db (some e) none none)
    ∧ (be ≠ some "true" →
        projectsDisplayQueryset db (some e) (some "true") be
          = .ok ((okList (projectsDisplayQueryset db (some e) none none)).filter
              (fun p => p.frontend)))
    ∧ (fe ≠ some "true" →
        projectsDisplayQueryset db (some e) fe (some "true")
          = .ok ((okList (projectsDisplayQueryset db (some e) none none)).filter
              (fun p => p.backend))) := by
  refine ⟨?_, ?_, ?_⟩
  · rfl
  · intro hbe
    have hb : (be == some "true") = false := beq_eq_false_iff_ne.mpr hbe
    simp [projectsDisplayQueryset, qtruthy_some he, hf, okList, hb,
      List.filter_filter]
    apply List.filter_congr
    intro a _
    simp [Bool.and_comm, Bool.and_left_comm, Bool.and_assoc]
  · intro hfe
    have hb : (fe == some "true") = false := beq_eq_false_iff_ne.mpr hfe
    simp [projectsDisplayQueryset, qtruthy_some he, hf, okList, hb,
      List.filter_filter]
    apply List.filter_congr
    intro a _
    simp [Bool.and_comm, Bool.and_left_comm, Bool.and_assoc]

/-- Witness for C8 at `exDb` for viewer Bob: the three filter
combinations evaluated concretely through `discovery_skill_filters`. -/
theorem discovery_skill_filters_witness :
    (projectsDisplayQueryset exDb (some "b@x.com") (some "true") (some "true")
      = projectsDisplayQueryset exDb (some "b@x.com") none none)
    ∧ projectsDisplayQueryset exDb (some "b@x.com") (some "true") none
      = .ok ((okList (projectsDisplayQueryset exDb (some "b@x.com") none none)).filter
          (fun p => p.frontend))
    ∧ projectsDisplayQueryset exDb (some "b@x.com") none (some "true")
      = .ok ((okList (projectsDisplayQueryset exDb (some "b@x.com") none none)).filter
          (fun p => p.backend)) := by
  refine ⟨?_, ?_, ?_⟩
  · exact (discovery_skill_filters exDb "b@x.com" exUserB none none
      (by decide) (by decide)).1
  · exact (discovery_skill_filters exDb "b@x.com" exUserB none none
      (by decide) (by decide)).2.1 (by decide)
  · exact (discovery_skill_filters exDb "b@x.com" exUserB none none
      (by decide) (by decide)).2.2 (by decide)

/-- C2 counterexample: in `exDbReq` a pending request by Bob for project
P already exists; the second identical request_join call does NOT fail
with a typed DuplicateRequest 400 validation error — it surfaces the
unhandled uniqueness (integrity) violation. -/
theorem request_join_duplicate_cex :
    projectRequestCreate exDbReq "a@x.com" "P" "b@x.com" none = .error ApiError.integrity
    ∧ isValidationError (projectRequestCreate exDbReq "a@x.com" "P" "b@x.com" none) = false :=
  ⟨rfl, rfl⟩

/-- C2 (amended): a second request_join call with an identical (project,
requester) pair fails — the uniqueness constraint rejects the insert,
surfacing as an unhandled integrity error rather than a typed
DuplicateRequest 400 — and every successful request_join preserves the
invariant that at most one request row exists per (project, member)
pair. -/
theorem request_join_duplicate (db : DB) (oe pn me : String) (msg : Option String)
    (owner member : User) (project : Project) (db2 : DB) (row : JoinRow) :
    (db.users.find? (fun x => x.email == oe) = some owner →
     db.users.find? (fun x => x.email == me) = some member →
     (db.projects.filter (fun p => p.owner == owner.id)).find?
        (fun p => p.projectname == pn) = some project →
     db.requests.any (fun r => r.project == project.id && r.member == member.id) = true →
     projectRequestCreate db oe pn me msg = .error ApiError.integrity)
    ∧ (pairUnique db.requests →
       projectRequestCreate db oe pn me msg = .ok (db2, row) →
       pairUnique db2.requests) := by
  constructor
  · intro h1 h2 h3 h4
    simp [projectRequestCreate, h1, h2, h3, h4]
  · intro hp hok
    unfold projectRequestCreate at hok
    dsimp only at hok
    split at hok
    · cases hok
    · split at hok
      · cases hok
      · split at hok
        · cases hok
        · split at hok
          · cases hok
          · rename_i hdup
            injection hok with hok2
            injection hok2 with hdb hrow
            subst hdb
            rw [pairUnique] at hp ⊢
            dsimp only
            rw [List.pairwise_append]
            refine ⟨hp, List.pairwise_singleton _ _, ?_⟩
            intro a ha b hb
            rw [List.mem_singleton] at hb
            subst hb
            dsimp only
            have hall := hdup
            simp at hall
            have h2 := hall a ha
            tauto

/-- Witness for C2: the duplicate call on `exDbReq` surfaces the
integrity error, and a successful request_join on `exDb` keeps the
request table pair-unique. -/
theorem request_join_duplicate_witness :
    projectRequestCreate exDbReq "a@x.com" "P" "b@x.com" none = .error ApiError.integrity
    ∧ pairUnique ({ exDb with requests := [exRowBP] } : DB).requests := by
  constructor
  · exact (request_join_duplicate exDbReq "a@x.com" "P" "b@x.com" none exUserA exUserB
      exProjP exDb exRowBP).1 (by decide) (by decide) (by decide) (by decide)
  · exact (request_join_duplicate exDb "a@x.com" "P" "b@x.com" none exUserA exUserB
      exProjP ({ exDb with requests := [exRowBP] }) exRowBP).2 (by decide) rfl

/-- C4 counterexample: project (Ann, "P") already exists in `exDb`; a
second create_project call with the same owner and name does NOT fail
with a typed DuplicateProjectName validation error — it surfaces the
unhandled uniqueness (integrity) violation. -/
theorem create_project_duplicate_cex :
    projectLeadCreate exDb "a@x.com" "P" "other" false false = .error ApiError.integrity
    ∧ isValidationError (projectLeadCreate exDb "a@x.com" "P" "other" false false) = false :=
  ⟨rfl, rfl⟩

/-- C4 (amended): create_project fails with a typed UnknownOwner
validation error when no user matches the owner email; when (owner,
name) already exists it fails via the uniqueness constraint as an
unhandled integrity error rather than a typed DuplicateProjectName
error; otherwise it returns the created project owned by that user. -/
theorem create_project_errors (db : DB) (email pn d : String) (fe be : Bool) (u : User) :
    (db.users.find? (fun x => x.email == email) = none →
      projectLeadCreate db email pn d fe be = .error (ApiError.validation "email"))
    ∧ (db.users.find? (fun x => x.email == email) = some u →
       db.projects.any (fun p => p.owner == u.id && p.projectname == pn) = true →
        projectLeadCreate db email pn d fe be = .error ApiError.integrity)
    ∧ (db.users.find? (fun x => x.email == email) = some u →
       db.projects.any (fun p => p.owner == u.id && p.projectname == pn) = false →
        projectLeadCreate db email pn d fe be = .ok
          ({ db with projects := db.projects ++ [{ id := db.nextPid, owner := u.id, projectname := pn, description := d, frontend := fe, backend := be }], nextPid := db.nextPid + 1 },
            { id := db.nextPid, owner := u.id, projectname := pn, description := d, frontend := fe, backend := be })) := by
  refine ⟨?_, ?_, ?_⟩
  · intro h
    simp [projectLeadCreate, h]
  · intro h1 h2
    simp [projectLeadCreate, h1, h2]
  · intro h1 h2
    simp [projectLeadCreate, h1, h2]

/-- Witness for C4: unknown owner gives the typed validation error,
duplicate (Ann, "P") gives the integrity error, and a fresh (Bob, "Q")
creation succeeds, all on `exDb`. -/
theorem create_project_errors_witness :
    projectLeadCreate exDb "zz@x.com" "Q" "d" false false
      = .error (ApiError.validation "email")
    ∧ projectLeadCreate exDb "a@x.com" "P" "d" false false = .error ApiError.integrity
    ∧ projectLeadCreate exDb "b@x.com" "Q" "d" true false
      = .ok ({ exDb with projects := exDb.projects ++ [exProjQ], nextPid := 2 }, exProjQ) := by
  refine ⟨?_, ?_, ?_⟩
  · exact (create_project_errors exDb "zz@x.com" "Q" "d" false false exUserA).1 (by decide)
  · exact (create_project_errors exDb "a@x.com" "P" "d" false false exUserA).2.1
      (by decide) (by decide)
  · exact (create_project_errors exDb "b@x.com" "Q" "d" true false exUserB).2.2
      (by decide) (by decide)

/-- C7 counterexample: registering "a@X.com" into the empty database
succeeds and stores the NORMALIZED email "a@x.com"; repeating the very
same call does not fail with a typed ConflictError — the raw string
matches no stored email, so the collision on the normalized email
surfaces as the unhandled integrity error. -/
theorem register_normalized_duplicate_cex :
    register exDb0 "a@X.com" "F" "L" false false
      = .ok (exDb7, { id := 0, email := "a@x.com", firstname := "F", lastname := "L", frontend := false, backend := false, is_active := true })
    ∧ register exDb7 "a@X.com" "F" "L" false false = .error ApiError.integrity
    ∧ isValidationError (register exDb7 "a@X.com" "F" "L" false false) = false := by
  refine ⟨?_, ?_, ?_⟩ <;> rfl

/-- C7 (amended): registration strips and normalizes the email; an
empty (or all-whitespace) email fails with the typed MissingEmail
validation error; a submitted email exactly matching a stored one fails
with the typed ConflictError; a submitted email matching no stored
email whose NORMALIZED form collides with a stored one fails with the
unhandled integrity error instead of a typed error; a successful
registration stores the normalized email on a user with active = true
and preserves email uniqueness. -/
theorem register_spec (db : DB) (email fn ln : String) (fe be : Bool)
    (db2 : DB) (u : User) :
    (pystrip email = "" → register db email fn ln fe be = .error (ApiError.validation "email"))
    ∧ (db.users.any (fun w => w.email == pystrip email) = true →
        register db email fn ln fe be = .error (ApiError.validation "email"))
    ∧ (db.users.any (fun w => w.email == pystrip email) = false →
       db.users.any (fun w => w.email == normalize_email (pystrip email)) = true →
        register db email fn ln fe be = .error ApiError.integrity)
    ∧ (register db email fn ln fe be = .ok (db2, u) →
        u.email = normalize_email (pystrip email) ∧ u.is_active = true
        ∧ (emailsUnique db.users → emailsUnique db2.users)) := by
  refine ⟨?_, ?_, ?_, ?_⟩
  · intro h
    simp [register, h]
  · intro h
    by_cases hv : (pystrip email == "") = true <;> simp [register, hv, h]
  · intro h1 h2
    by_cases hv : (pystrip email == "") = true
    · have he0 : pystrip email = "" := by simpa using hv
      rw [he0] at h1 h2
      rw [show normalize_email "" = "" from rfl] at h2
      rw [h1] at h2
      cases h2
    · simp [register, hv, h1, h2]
  · intro hok
    unfold register at hok
    dsimp only at hok
    split at hok
    · cases hok
    · split at hok
      · cases hok
      · split at hok
        · cases hok
        · rename_i hfresh
          injection hok with hok2
          injection hok2 with hdb hrow
          subst hdb
          subst hrow
          refine ⟨rfl, rfl, ?_⟩
          intro hu
          rw [emailsUnique] at hu ⊢
          dsimp only
          rw [List.pairwise_append]
          refine ⟨hu, List.pairwise_singleton _ _, ?_⟩
          intro a ha b hb
          rw [List.mem_singleton] at hb
          subst hb
          dsimp only
          have hall := hfresh
          simp at hall
          exact hall a ha

/-- Witness for C7: blank email, exact duplicate, normalized-only
duplicate, and a fresh registration whose result keeps emails unique,
all through `register_spec` at concrete inputs. -/
theorem register_spec_witness :
    register exDb7 "  " "F" "L" false false = .error (ApiError.validation "email")
    ∧ register exDb7 "a@x.com" "F" "L" false false = .error (ApiError.validation "email")
    ∧ register exDb7 "a@X.com" "F" "L" false false = .error ApiError.integrity
    ∧ (exUserC.email = normalize_email (pystrip "b@Y.com")
        ∧ exUserC.is_active = true
        ∧ (emailsUnique exDb7.users →
            emailsUnique ({ exDb7 with users := exDb7.users ++ [exUserC], nextUid := 2 } : DB).users)) := by
  refine ⟨?_, ?_, ?_, ?_⟩
  · exact (register_spec exDb7 "  " "F" "L" false false exDb7 exUserA).1 (by decide)
  · exact (register_spec exDb7 "a@x.com" "F" "L" false false exDb7 exUserA).2.1 (by decide)
  · exact (register_spec exDb7 "a@X.com" "F" "L" false false exDb7 exUserA).2.2.1
      (by decide) (by decide)
  · exact (register_spec exDb7 "b@Y.com" "F" "L" true false
      ({ exDb7 with users := exDb7.users ++ [exUserC], nextUid := 2 }) exUserC).2.2.2 rfl

end Projecto
